import Mathlib

/-!
Verification development for the Ticket-To-Ride-Scorer training subsystem
(`training.py`).  The Python code is shallowly embedded: images are pixel
grids with explicit dimensions, external randomness (the `randperm` used by
`torch.utils.data.random_split`, the shuffled batch order of the data
loaders, the wall clock read by `time.time()`) is passed in as parameters,
and Python exceptions are modelled with `Except`.
-/

namespace T2R

/-! ## Labels (`T2RDataset.__init__` / filename parsing) -/

/-- The fixed color table `self.color_mapping` from `T2RDataset.__init__`
(training.py line 79). -/
def color_mapping : List (String × Nat) :=
  [("blue", 1), ("black", 2), ("green", 3), ("red", 4), ("yellow", 5)]

/-- Python `dict.get(key, default)` on an association list. -/
def dictGet (table : List (String × Nat)) (key : String) (default : Nat) : Nat :=
  match table.find? (fun p => p.1 = key) with
  | some p => p.2
  | none => default

/-- Python `filename.split('-')[0]`: the text before the first `-`
(the whole string when no `-` occurs; `""` for the empty string). -/
def splitFirstDash (s : String) : String :=
  (s.splitOn "-").headD ""

/-- The label id derived from a filename, as computed at
training.py lines 118-120 and 132-134:
`self.color_mapping.get(filename.split('-')[0], 0)`. -/
def labelOf (filename : String) : Nat :=
  dictGet color_mapping (splitFirstDash filename) 0

/-! ## Images

An image is a pixel grid with explicit height, width and channel count;
`cv2.imread` yields 3-channel (BGR) grids.  Pixel values are rationals. -/

structure Image where
  height : Nat
  width : Nat
  channels : Nat
  px : Nat → Nat → Nat → ℚ

/-- `cv2.resize(img, (desired_width, desired_height))`: output dimensions are
exactly the requested ones, channel count is preserved.  The interpolation
kernel (here nearest neighbour) is not load-bearing for any claim. -/
def cv2_resize (img : Image) (desired_width desired_height : Nat) : Image :=
  { height := desired_height
    width := desired_width
    channels := img.channels
    px := fun i j c => img.px (i * img.height / desired_height) (j * img.width / desired_width) c }

/-- `scipy.ndimage.rotate(img, angle, reshape=False)` at right angles:
`reshape=False` keeps the output canvas equal to the input canvas.  For the
square 100x100 inputs used by `load_station_image` the pixel maps below are
the exact right-angle rotations. -/
def scipy_rotate (img : Image) (angle : Nat) : Image :=
  { height := img.height
    width := img.width
    channels := img.channels
    px := fun i j c =>
      if angle % 360 = 90 then img.px j (img.height - 1 - i) c
      else if angle % 360 = 180 then img.px (img.height - 1 - i) (img.width - 1 - j) c
      else if angle % 360 = 270 then img.px (img.width - 1 - j) i c
      else img.px i j c }

/-! ## Dataset construction (`T2RDataset`) -/

/-- The mutable `self.data` / `self.targets` pair of `T2RDataset`. -/
structure T2RDataset where
  data : List Image
  targets : List Nat
deriving Inhabited

/-- `T2RDataset.load_station_image` (training.py lines 105-120): resize to
100x100, then for each angle in `[0, 90, 180, 270]` append the rotated copy
and the label derived from the filename. -/
def load_station_image (ds : T2RDataset) (original_image : Image) (filename : String) :
    T2RDataset :=
  let resized_image := cv2_resize original_image 100 100
  [0, 90, 180, 270].foldl
    (fun s rotation_angle =>
      let rotated_image := scipy_rotate resized_image rotation_angle
      let label := splitFirstDash filename
      { data := s.data ++ [rotated_image]
        targets := s.targets ++ [dictGet color_mapping label 0] })
    ds

/-- `T2RDataset.load_train_image` (training.py lines 122-134): resize to
width 125, height 50, append once with the derived label. -/
def load_train_image (ds : T2RDataset) (original_image : Image) (filename : String) :
    T2RDataset :=
  let image := cv2_resize original_image 125 50
  let label := splitFirstDash filename
  { data := ds.data ++ [image]
    targets := ds.targets ++ [dictGet color_mapping label 0] }

/-- A directory entry as seen by `os.listdir(folder_path)`: a file name and
the image `cv2.imread` decodes from it. -/
structure PyFile where
  name : String
  content : Image

/-- A subfolder of the root directory: its name and its files, in
`os.listdir` order. -/
structure Folder where
  name : String
  files : List PyFile

/-- `T2RDataset.load_data` (training.py lines 83-102): iterate the root's
entries skipping `.DS_Store`, iterate each subfolder's files skipping
`.DS_Store`, and dispatch each decoded image on `dtype`;  a `dtype` other
than `'station'` / `'train'` appends nothing. -/
def load_data (dtype : String) (root_listing : List Folder) (ds : T2RDataset) : T2RDataset :=
  root_listing.foldl
    (fun s folder =>
      if folder.name ≠ ".DS_Store" then
        folder.files.foldl
          (fun s2 f =>
            if f.name ≠ ".DS_Store" then
              let original_image := f.content
              if dtype = "station" then load_station_image s2 original_image f.name
              else if dtype = "train" then load_train_image s2 original_image f.name
              else s2
            else s2)
          s
      else s)
    ds

/-- `T2RDataset.__init__` (training.py lines 64-81): start from empty
`data` / `targets` and run `load_data`. -/
def T2RDataset.init (root_listing : List Folder) (dtype : String) : T2RDataset :=
  load_data dtype root_listing { data := [], targets := [] }

/-- `T2RDataset.__len__` (training.py lines 172-179). -/
def T2RDataset.size (ds : T2RDataset) : Nat :=
  ds.data.length

/-- The number of source images the traversal of `load_data` visits: files
not named `.DS_Store` inside subfolders not named `.DS_Store`. -/
def num_source_images (root_listing : List Folder) : Nat :=
  ((root_listing.filter (fun folder => folder.name ≠ ".DS_Store")).map
    (fun folder => (folder.files.filter (fun f => f.name ≠ ".DS_Store")).length)).sum

/-- The body of the inner file loop of `load_data`, named for the proofs:
skip `.DS_Store`, decode, dispatch on `dtype`. -/
def file_step (dtype : String) (s2 : T2RDataset) (f : PyFile) : T2RDataset :=
  if f.name ≠ ".DS_Store" then
    let original_image := f.content
    if dtype = "station" then load_station_image s2 original_image f.name
    else if dtype = "train" then load_train_image s2 original_image f.name
    else s2
  else s2

/-- The body of the outer folder loop of `load_data`, named for the proofs. -/
def folder_step (dtype : String) (s : T2RDataset) (folder : Folder) : T2RDataset :=
  if folder.name ≠ ".DS_Store" then folder.files.foldl (file_step dtype) s else s

/-! ## Splitting (`T2RDataset.split_data` and `torch.utils.data.random_split`)

Float arithmetic is idealised over ℚ.  The `randperm` drawn inside
`random_split` is passed in explicitly as `perm`. -/

/-- Python exception kinds raised by the embedded library calls. -/
inductive PyError where
  | valueError
deriving DecidableEq, Repr

/-- Python `int(q)`: truncation toward zero. -/
def pyint (q : ℚ) : Int :=
  if 0 ≤ q then ⌊q⌋ else ⌈q⌉

/-- A Python slice index normalised against a list length: negative indices
count from the end, and out-of-range indices clamp. -/
def pySliceIdx (len : Nat) (i : Int) : Nat :=
  if i < 0 then (max 0 ((len : Int) + i)).toNat else min i.toNat len

/-- Python `l[a:b]`. -/
def pySlice {α : Type} (l : List α) (a b : Int) : List α :=
  (l.drop (pySliceIdx l.length a)).take (pySliceIdx l.length b - pySliceIdx l.length a)

/-- `itertools.accumulate(lengths)`: running partial sums. -/
def accumulate (lengths : List Int) : List Int :=
  (lengths.scanl (fun a b => a + b) 0).tail

/-- `torch.utils.data.random_split(dataset, lengths)` with the drawn
permutation `perm` made explicit: raise `ValueError` when the lengths do not
sum to the dataset length, else return `perm[offset - length : offset]` for
each accumulated offset. -/
def random_split (dataset_len : Nat) (lengths : List Int) (perm : List Nat) :
    Except PyError (List (List Nat)) :=
  if lengths.sum ≠ (dataset_len : Int) then .error .valueError
  else .ok (((accumulate lengths).zip lengths).map (fun ol => pySlice perm (ol.1 - ol.2) ol.1))

/-- `T2RDataset.split_data` (training.py lines 137-152):
`train_size = int(train_percentage * dataset_size)`,
`test_size = dataset_size - train_size`, then `random_split` over the two
sizes; the two returned subsets are identified with their index lists. -/
def split_data (dataset_size : Nat) (train_percentage : ℚ) (perm : List Nat) :
    Except PyError (List Nat × List Nat) :=
  let train_size : Int := pyint (train_percentage * dataset_size)
  let test_size : Int := (dataset_size : Int) - train_size
  match random_split dataset_size [train_size, test_size] perm with
  | .error e => .error e
  | .ok subsets =>
    match subsets with
    | [train_dataset, test_dataset] => .ok (train_dataset, test_dataset)
    | _ => .error .valueError

/-! ## The CNN architectures (`TrainsCNN`, `StationsCNN`) -/

/-- One layer of the `nn.Sequential` pipelines. -/
inductive Layer where
  | conv2d (inChannels outChannels kernel_size : Nat)
  | relu
  | maxPool2d (kernel_size : Nat)
  | flatten
  | linear (inFeatures outFeatures : Nat)
deriving DecidableEq, Repr

/-- `TrainsCNN.__init__` (training.py lines 20-32). -/
def TrainsCNN_model : List Layer :=
  [.conv2d 3 15 3, .relu, .maxPool2d 2, .relu, .flatten,
   .linear 21960 512, .relu, .linear 512 6]

/-- `StationsCNN.__init__` (training.py lines 42-54). -/
def StationsCNN_model : List Layer :=
  [.conv2d 3 15 3, .relu, .maxPool2d 2, .relu, .flatten,
   .linear 36015 512, .relu, .linear 512 6]

/-- Spatial output size of an unpadded stride-1 convolution. -/
def conv2d_out (dim kernel_size : Nat) : Nat :=
  dim - kernel_size + 1

/-- Spatial output size of a max pooling layer (stride = kernel size). -/
def maxPool2d_out (dim kernel_size : Nat) : Nat :=
  dim / kernel_size

/-- The flattened feature width after `Conv2d(3, 15, 3)` and `MaxPool2d(2)`
on an `h × w` input: 15 channels times the pooled spatial dimensions. -/
def flattened_width (h w : Nat) : Nat :=
  15 * maxPool2d_out (conv2d_out h 3) 2 * maxPool2d_out (conv2d_out w 3) 2

/-- Modelled from the spec: the shared layer template of §4.3, with the
flattened feature width as its only parameter.  Compared against the two
source architectures in the claim about the model variants. -/
def cnn_variant_template (fw : Nat) : List Layer :=
  [.conv2d 3 15 3, .relu, .maxPool2d 2, .relu, .flatten,
   .linear fw 512, .relu, .linear 512 6]

/-! ## The training loop (`Classifier`)

The loop is embedded generically over the parameter state `P` of
`self.model` and the batch type `B`.  The torch internals are the three
fields of `Classifier`: `loss_func` is the value of
`self.loss_func(self.model(x), y).item()` at the current parameters,
`grad_step` is the net effect on the parameters of
`batch_loss.backward(); self.optimizer.step()`, and `accOf` is the argmax
match fraction computed by `Classifier.accuracy`.  Batch order per epoch
(the shuffling data loaders) and the wall clock are passed in explicitly. -/

/-- A Python float as far as the claims care: either a finite rational or a
non-finite value (NaN / ±inf). -/
inductive PyFloat where
  | finite (q : ℚ)
  | nonfinite
deriving DecidableEq, Repr

def PyFloat.isFinite : PyFloat → Bool
  | .finite _ => true
  | .nonfinite => false

def PyFloat.val : PyFloat → ℚ
  | .finite q => q
  | .nonfinite => 0

/-- `np.mean(l)`: NaN on an empty list, non-finite whenever some entry is
non-finite, else the arithmetic mean. -/
def np_mean (l : List PyFloat) : PyFloat :=
  if l.isEmpty then .nonfinite
  else if l.any (fun v => !v.isFinite) then .nonfinite
  else .finite ((l.map PyFloat.val).sum / (l.length : ℚ))

/-- The state and torch collaborators of a `Classifier` instance
(training.py lines 182-210), shallowly: the parameter state of `self.model`
together with the semantic functions of the loss, the optimizer step and
the accuracy computation. -/
structure Classifier (P B : Type) where
  params : P
  loss_func : P → B → PyFloat
  grad_step : P → B → P
  accOf : P → B → ℚ

/-- `Classifier.train_batch` (training.py lines 234-250): compute the batch
loss at the current parameters, apply the gradient step (mutating
`self.model`), and return the loss value. -/
def Classifier.train_batch {P B : Type} (c : Classifier P B) (b : B) :
    Classifier P B × PyFloat :=
  let batch_loss := c.loss_func c.params b
  ({ c with params := c.grad_step c.params b }, batch_loss)

/-- `Classifier.accuracy` (training.py lines 252-268): `@torch.no_grad()`,
reads the parameters without mutating them. -/
def Classifier.accuracy {P B : Type} (c : Classifier P B) (b : B) : ℚ :=
  c.accOf c.params b

/-- The per-batch body shared by the two inner loops of `Classifier.train`
(training.py lines 285-290 and 296-301): for each batch call `train_batch`
then `accuracy`, accumulating the loss and accuracy lists. -/
def run_pass {P B : Type} (c : Classifier P B) (batches : List B) :
    Classifier P B × List PyFloat × List ℚ :=
  batches.foldl
    (fun st b =>
      let (c1, batch_loss) := st.1.train_batch b
      let batch_acc := c1.accuracy b
      (c1, st.2.1 ++ [batch_loss], st.2.2 ++ [batch_acc]))
    (c, [], [])

/-- The `results` tuple built by `Classifier.train` (training.py line 309)
and handed to `plot_results`, together with the parameter state of
`self.model` once the loop is done. -/
structure TrainRun (P : Type) where
  train_losses : List PyFloat
  train_accuracies : List PyFloat
  test_losses : List PyFloat
  test_accuracies : List PyFloat
  time_per_epoch : List ℚ
  model_params : P
deriving Repr

/-- The epoch loop of `Classifier.train` (training.py lines 279-307): per
epoch, read the clock, run the gradient-updating pass over the train
loader, run the *same* gradient-updating pass (`self.train_batch`) over the
test loader, append the four `np.mean` aggregates and the elapsed time.
`clock n` is the value of the n-th `time.time()` call. -/
def train_epochs {P B : Type} (c : Classifier P B) (num_epochs : Nat)
    (train_loader test_loader : Nat → List B) (clock : Nat → ℚ) : TrainRun P :=
  (List.range num_epochs).foldl
    (fun r epoch =>
      let start_time := clock (2 * epoch)
      let (c1, epoch_losses, epoch_accuracies) :=
        run_pass { c with params := r.model_params } (train_loader epoch)
      let (c2, epoch_test_losses, epoch_test_accuracies) :=
        run_pass c1 (test_loader epoch)
      let end_time := clock (2 * epoch + 1)
      { train_losses := r.train_losses ++ [np_mean epoch_losses]
        train_accuracies := r.train_accuracies ++ [np_mean (epoch_accuracies.map .finite)]
        test_losses := r.test_losses ++ [np_mean epoch_test_losses]
        test_accuracies := r.test_accuracies ++ [np_mean (epoch_test_accuracies.map .finite)]
        time_per_epoch := r.time_per_epoch ++ [end_time - start_time]
        model_params := c2.params })
    { train_losses := [], train_accuracies := [], test_losses := []
      test_accuracies := [], time_per_epoch := [], model_params := c.params }

/-- `plt.plot(x, y)`: matplotlib raises `ValueError` when `x` and `y` do not
have the same first dimension. -/
def plt_plot {α β : Type} (x : List α) (y : List β) : Except PyError Unit :=
  if x.length = y.length then .ok () else .error .valueError

/-- `np.arange(10) + 1`, the hard-coded x-axis of `plot_results`
(training.py lines 363-375). -/
def np_arange10_plus1 : List ℚ :=
  (List.range 10).map (fun n => (n : ℚ) + 1)

/-- `Classifier.plot_results` (training.py lines 351-377): the five
`plt.plot` calls against the hard-coded 10-element x-axis, raising on the
first length mismatch. -/
def plot_results {P : Type} (r : TrainRun P) : Except PyError Unit := do
  plt_plot np_arange10_plus1 r.train_losses
  plt_plot np_arange10_plus1 r.test_losses
  plt_plot np_arange10_plus1 r.train_accuracies
  plt_plot np_arange10_plus1 r.test_accuracies
  plt_plot np_arange10_plus1 r.time_per_epoch

/-- `Classifier.train` (training.py lines 271-312): run the epoch loop, then
`plot_results`; an uncaught exception from plotting propagates.  The Python
function itself returns `None`; its observable outcome — the computed
`results` tuple and the final parameter state — is returned here on the
successful path. -/
def Classifier.train {P B : Type} (c : Classifier P B) (num_epochs : Nat)
    (train_loader test_loader : Nat → List B) (clock : Nat → ℚ) :
    Except PyError (TrainRun P) :=
  let results := train_epochs c num_epochs train_loader test_loader clock
  match plot_results results with
  | .error e => .error e
  | .ok _ => .ok results

/-! ## Concrete instances used by counterexamples and witnesses -/

/-- A concrete classifier instance: integer parameter state, unit batches,
finite loss 1 everywhere, each gradient step adds one to the parameter. -/
def cxClassifier : Classifier Int Unit :=
  { params := 0
    loss_func := fun _ _ => .finite 1
    grad_step := fun p _ => p + 1
    accOf := fun _ _ => 1 }

/-- A concrete classifier instance whose loss is non-finite on every batch
and whose gradient step is the identity. -/
def cxDivergent : Classifier Int Unit :=
  { params := 0
    loss_func := fun _ _ => .nonfinite
    grad_step := fun p _ => p
    accOf := fun _ _ => 1 }

/-- A concrete 3-channel image. -/
def cxImage : Image :=
  { height := 40, width := 60, channels := 3, px := fun _ _ _ => 0 }

/-- A concrete root listing with one real subfolder (one real file plus a
`.DS_Store` entry) and a `.DS_Store` entry at the root. -/
def cxListing : List Folder :=
  [{ name := "reds"
     files := [{ name := "red-1.png", content := cxImage },
               { name := ".DS_Store", content := cxImage }] },
   { name := ".DS_Store", files := [] }]

/-! ## Theorems -/

/-- C2: for every loaded image file, the derived label equals the fixed
table value for the text before the first `-` in the filename (blue=1,
black=2, green=3, red=4, yellow=5), and every other prefix string — the
match being exact and case-sensitive — yields label id 0. -/
theorem labelOf_matches_table (filename : String) :
    labelOf filename =
      (if splitFirstDash filename = "blue" then 1
       else if splitFirstDash filename = "black" then 2
       else if splitFirstDash filename = "green" then 3
       else if splitFirstDash filename = "red" then 4
       else if splitFirstDash filename = "yellow" then 5
       else 0) := by
  have hsym : ∀ (a b : String), a ≠ b → decide (b = a) = false :=
    fun a b h => decide_eq_false (fun e => h e.symm)
  unfold labelOf dictGet color_mapping
  split_ifs with h1 h2 h3 h4 h5
  · rw [h1]; rfl
  · rw [h2]; rfl
  · rw [h3]; rfl
  · rw [h4]; rfl
  · rw [h5]; rfl
  · simp only [List.find?, hsym _ _ h1, hsym _ _ h2, hsym _ _ h3, hsym _ _ h4,
      hsym _ _ h5]

/-- C7: the flattened feature width feeding the first dense layer is
15 × ⌊(H−2)/2⌋ × ⌊(W−2)/2⌋ (3×3 unpadded convolution to 15 channels, then
2×2 max pooling), giving 21960 at the train-entity input size 50×125 and
36015 at the station-entity input size 100×100; the two published model
variants are the common layer template instantiated at exactly these two
widths, their only difference. -/
theorem flattened_width_spec :
    (∀ h w : Nat, 3 ≤ h → 3 ≤ w →
        flattened_width h w = 15 * ((h - 2) / 2) * ((w - 2) / 2))
    ∧ flattened_width 50 125 = 21960
    ∧ flattened_width 100 100 = 36015
    ∧ TrainsCNN_model = cnn_variant_template (flattened_width 50 125)
    ∧ StationsCNN_model = cnn_variant_template (flattened_width 100 100) := by
  refine ⟨fun h w hh hw => ?_, by decide, by decide, by decide, by decide⟩
  unfold flattened_width conv2d_out maxPool2d_out
  have e1 : h - 3 + 1 = h - 2 := by omega
  have e2 : w - 3 + 1 = w - 2 := by omega
  rw [e1, e2]

/-- Witness for the claim about the flattened feature width. -/
theorem flattened_width_spec_witness :
    flattened_width 50 125 = 15 * ((50 - 2) / 2) * ((125 - 2) / 2) :=
  flattened_width_spec.1 50 125 (by decide) (by decide)

/-- Evaluation of `split_data`: the `ValueError` branch of `random_split` is
unreachable (the two lengths sum to the dataset size by construction), and
the two subsets are the slices `perm[0:train_size]` and
`perm[train_size:dataset_size]`. -/
theorem split_data_eq (N : Nat) (t : ℚ) (perm : List Nat) :
    split_data N t perm =
      .ok (pySlice perm 0 (pyint (t * N)), pySlice perm (pyint (t * N)) N) := by
  unfold split_data random_split accumulate
  simp only [List.scanl, List.tail, List.zip, List.zipWith, List.map,
    List.sum_cons, List.sum_nil]
  rw [if_neg (by push_neg; ring)]
  norm_num

/-- C4: at a concrete instance with an empty train loader, a one-batch test
loader and a gradient step that adds one, ten epochs of `Classifier.train`
move the model parameters from 0 to 10 — every update coming from the pass
over the test subset, which the code runs through the gradient-updating
`train_batch` — refuting the claim that the test pass leaves the
parameters unchanged. -/
theorem test_pass_mutates_params :
    ((Classifier.train cxClassifier 10 (fun _ => []) (fun _ => [()])
        (fun n => (n : ℚ))).map (fun r => r.model_params)) = .ok 10
    ∧ (run_pass cxClassifier [()]).1.params = 1
    ∧ (10 : Int) ≠ 0 := by
  refine ⟨rfl, rfl, by decide⟩

/-- C5: at a concrete instance whose loss is non-finite on every batch,
`Classifier.train` does not abort: it runs all ten epochs to completion and
records the non-finite means in the returned curves — the code has no
finiteness check and no `TrainingDivergenceError`. -/
theorem nonfinite_loss_not_fatal :
    ((Classifier.train cxDivergent 10 (fun _ => [()]) (fun _ => [()])
        (fun n => (n : ℚ))).map (fun r => (r.train_losses, r.test_losses))) =
      .ok (List.replicate 10 .nonfinite, List.replicate 10 .nonfinite) := by
  rfl

/-- C8: with `num_epochs = 3` (the spec's scenario D) the epoch loop does
build three records per metric list, but `Classifier.train` then aborts
with matplotlib's `ValueError`, because `plot_results` plots the hard-coded
10-element x-axis `np.arange(10) + 1` against the 3-element lists — so no
record sequence is delivered. -/
theorem train_three_epochs_crashes :
    Classifier.train cxClassifier 3 (fun _ => [()]) (fun _ => [()])
        (fun n => (n : ℚ)) = .error .valueError
    ∧ (train_epochs cxClassifier 3 (fun _ => [()]) (fun _ => [()])
        (fun n => (n : ℚ))).train_losses.length = 3 := by
  refine ⟨rfl, rfl⟩

/-- C6 counterexample: called on an empty dataset (`dataset_size = 0`) with
the default fraction 0.7, `split_data` does not fail with any
`InvalidFractionError` — it returns two (empty) index lists. -/
theorem split_data_size_zero_returns :
    split_data 0 (7 / 10) [] = .ok ([], []) := by
  rw [split_data_eq]
  simp [pySlice]

/-- C6 (amended): `split_data` performs no validation at all — for every
dataset size (including 0), every train fraction (inside or outside (0,1))
and every permutation it returns two index lists rather than failing; no
`InvalidFractionError` exists in the program. -/
theorem split_data_never_fails (dataset_size : Nat) (train_percentage : ℚ)
    (perm : List Nat) :
    ∃ train_indices test_indices,
      split_data dataset_size train_percentage perm =
        .ok (train_indices, test_indices) :=
  ⟨_, _, split_data_eq dataset_size train_percentage perm⟩

/-- A Python slice index that is already in `[0, len]` normalises to its
`toNat`. -/
theorem pySliceIdx_of_nonneg (len : Nat) (a : Int) (h0 : 0 ≤ a)
    (h : a ≤ (len : Int)) : pySliceIdx len a = a.toNat := by
  unfold pySliceIdx
  rw [if_neg (by omega)]
  omega

/-- `l[0:b]` is `take` when `b` is in range. -/
theorem pySlice_zero_left {α : Type} (l : List α) (b : Int) (h0 : 0 ≤ b)
    (h : b ≤ (l.length : Int)) : pySlice l 0 b = l.take b.toNat := by
  unfold pySlice
  rw [pySliceIdx_of_nonneg _ _ le_rfl (by omega), pySliceIdx_of_nonneg _ _ h0 h]
  simp

/-- `l[a:len(l)]` is `drop` when `a` is in range. -/
theorem pySlice_to_length {α : Type} (l : List α) (a : Int) (h0 : 0 ≤ a)
    (h : a ≤ (l.length : Int)) : pySlice l a (l.length : Int) = l.drop a.toNat := by
  unfold pySlice
  rw [pySliceIdx_of_nonneg _ _ h0 h, pySliceIdx_of_nonneg _ _ (by omega) le_rfl]
  apply List.take_of_length_le
  simp

/-- C1: for a dataset of size N > 0 and a train fraction in (0, 1),
`split_data` returns two index lists that are disjoint, together a
permutation of [0, N), with |train| = ⌊fraction × N⌋ and
|test| = N − |train|. -/
theorem split_data_partition (dataset_size : Nat) (train_percentage : ℚ)
    (perm : List Nat) (hN : 0 < dataset_size) (h0 : 0 < train_percentage)
    (h1 : train_percentage < 1) (hperm : perm.Perm (List.range dataset_size)) :
    ∃ train_indices test_indices,
      split_data dataset_size train_percentage perm = .ok (train_indices, test_indices)
      ∧ train_indices.Disjoint test_indices
      ∧ (train_indices ++ test_indices).Perm (List.range dataset_size)
      ∧ (train_indices.length : Int) = ⌊train_percentage * (dataset_size : ℚ)⌋
      ∧ test_indices.length = dataset_size - train_indices.length := by
  have hlen : perm.length = dataset_size := by simpa using hperm.length_eq
  have hpos : (0 : ℚ) ≤ train_percentage * (dataset_size : ℚ) :=
    le_of_lt (mul_pos h0 (by exact_mod_cast hN))
  have hint : pyint (train_percentage * (dataset_size : ℚ)) =
      ⌊train_percentage * (dataset_size : ℚ)⌋ := by
    unfold pyint
    rw [if_pos hpos]
  have hf0 : (0 : Int) ≤ ⌊train_percentage * (dataset_size : ℚ)⌋ :=
    Int.floor_nonneg.mpr hpos
  have hfN : ⌊train_percentage * (dataset_size : ℚ)⌋ ≤ (dataset_size : Int) := by
    apply le_of_lt
    rw [Int.floor_lt]
    push_cast
    calc train_percentage * (dataset_size : ℚ)
        < 1 * (dataset_size : ℚ) := mul_lt_mul_of_pos_right h1 (by exact_mod_cast hN)
      _ = (dataset_size : ℚ) := one_mul _
  have hnodup : perm.Nodup := hperm.nodup_iff.mpr (List.nodup_range _)
  have htr : pySlice perm 0 (pyint (train_percentage * (dataset_size : ℚ))) =
      perm.take (⌊train_percentage * (dataset_size : ℚ)⌋).toNat := by
    rw [hint, pySlice_zero_left _ _ hf0 (by rw [hlen]; exact hfN)]
  have hte : pySlice perm (pyint (train_percentage * (dataset_size : ℚ)))
      ((dataset_size : Nat) : Int) =
      perm.drop (⌊train_percentage * (dataset_size : ℚ)⌋).toNat := by
    rw [hint]
    have h2 := pySlice_to_length perm _ hf0 (by rw [hlen]; exact hfN)
    rw [hlen] at h2
    exact h2
  have hkN : (⌊train_percentage * (dataset_size : ℚ)⌋).toNat ≤ perm.length := by omega
  refine ⟨_, _, split_data_eq _ _ _, ?_, ?_, ?_, ?_⟩
  · rw [htr, hte]
    exact List.disjoint_take_drop hnodup le_rfl
  · rw [htr, hte, List.take_append_drop]
    exact hperm
  · rw [htr, List.length_take, min_eq_left hkN]
    omega
  · rw [htr, hte, List.length_take, List.length_drop, min_eq_left hkN]
    omega

/-- Witness for the split partition claim: N = 10, fraction 7/10, identity
permutation. -/
theorem split_data_partition_witness :
    ∃ train_indices test_indices,
      split_data 10 (7 / 10) (List.range 10) = .ok (train_indices, test_indices)
      ∧ train_indices.Disjoint test_indices
      ∧ (train_indices ++ test_indices).Perm (List.range 10)
      ∧ (train_indices.length : Int) = ⌊(7 / 10 : ℚ) * ((10 : Nat) : ℚ)⌋
      ∧ test_indices.length = 10 - train_indices.length :=
  split_data_partition 10 (7 / 10) (List.range 10) (by decide)
    (div_pos (by decide) (by decide)) ((div_lt_one (by decide)).mpr (by decide))
    (List.Perm.refl _)

/-- `load_data` is the fold of `folder_step`. -/
theorem load_data_eq_foldl (dtype : String) (l : List Folder) (ds : T2RDataset) :
    load_data dtype l ds = l.foldl (folder_step dtype) ds := rfl

/-- `load_station_image` appends the four rotated copies of the 100×100
resize and four copies of the derived label. -/
theorem load_station_image_eq (ds : T2RDataset) (img : Image) (fn : String) :
    load_station_image ds img fn =
      { data := ds.data ++
          [0, 90, 180, 270].map (fun a => scipy_rotate (cv2_resize img 100 100) a)
        targets := ds.targets ++ List.replicate 4 (labelOf fn) } := by
  simp [load_station_image, labelOf, List.replicate]

theorem load_station_image_data_length (ds : T2RDataset) (img : Image) (fn : String) :
    (load_station_image ds img fn).data.length = ds.data.length + 4 := by
  rw [load_station_image_eq]
  simp

theorem load_train_image_data_length (ds : T2RDataset) (img : Image) (fn : String) :
    (load_train_image ds img fn).data.length = ds.data.length + 1 := by
  simp [load_train_image]

theorem file_step_ds_store (dtype : String) (s : T2RDataset) (f : PyFile)
    (h : f.name = ".DS_Store") : file_step dtype s f = s := by
  simp [file_step, h]

/-- Files named `.DS_Store` contribute nothing to the inner file loop. -/
theorem files_fold_skip (dtype : String) (files : List PyFile) (s : T2RDataset) :
    (files.filter (fun f => f.name ≠ ".DS_Store")).foldl (file_step dtype) s =
      files.foldl (file_step dtype) s := by
  induction files generalizing s with
  | nil => rfl
  | cons f fs ih =>
    rw [List.filter_cons]
    by_cases hf : f.name = ".DS_Store"
    · rw [if_neg (by simp [hf]), List.foldl_cons, file_step_ds_store dtype s f hf]
      exact ih s
    · rw [if_pos (by simp [hf]), List.foldl_cons, List.foldl_cons]
      exact ih _

theorem files_fold_station_length (files : List PyFile) (s : T2RDataset) :
    ((files.foldl (file_step "station") s).data.length) =
      s.data.length + 4 * (files.filter (fun f => f.name ≠ ".DS_Store")).length := by
  induction files generalizing s with
  | nil => simp
  | cons f fs ih =>
    rw [List.foldl_cons, List.filter_cons]
    by_cases hf : f.name = ".DS_Store"
    · rw [file_step_ds_store _ _ _ hf]
      simp [hf, ih]
    · have hstep : file_step "station" s f = load_station_image s f.content f.name := by
        simp [file_step, hf]
      rw [hstep, ih, load_station_image_data_length]
      simp [hf]
      ring

theorem files_fold_train_length (files : List PyFile) (s : T2RDataset) :
    ((files.foldl (file_step "train") s).data.length) =
      s.data.length + (files.filter (fun f => f.name ≠ ".DS_Store")).length := by
  induction files generalizing s with
  | nil => simp
  | cons f fs ih =>
    rw [List.foldl_cons, List.filter_cons]
    by_cases hf : f.name = ".DS_Store"
    · rw [file_step_ds_store _ _ _ hf]
      simp [hf, ih]
    · have hstep : file_step "train" s f = load_train_image s f.content f.name := by
        simp [file_step, hf]
      rw [hstep, ih, load_train_image_data_length]
      simp [hf]
      ring

theorem folders_fold_station_length (l : List Folder) (ds : T2RDataset) :
    ((l.foldl (folder_step "station") ds).data.length) =
      ds.data.length + 4 * num_source_images l := by
  induction l generalizing ds with
  | nil => simp [num_source_images]
  | cons folder rest ih =>
    rw [List.foldl_cons]
    by_cases hf : folder.name = ".DS_Store"
    · have hstep : folder_step "station" ds folder = ds := by
        simp [folder_step, hf]
      rw [hstep, ih]
      simp [num_source_images, List.filter_cons, hf]
    · have hstep : folder_step "station" ds folder =
          folder.files.foldl (file_step "station") ds := by
        simp [folder_step, hf]
      rw [hstep, ih, files_fold_station_length]
      simp [num_source_images, List.filter_cons, hf]
      ring

theorem folders_fold_train_length (l : List Folder) (ds : T2RDataset) :
    ((l.foldl (folder_step "train") ds).data.length) =
      ds.data.length + num_source_images l := by
  induction l generalizing ds with
  | nil => simp [num_source_images]
  | cons folder rest ih =>
    rw [List.foldl_cons]
    by_cases hf : folder.name = ".DS_Store"
    · have hstep : folder_step "train" ds folder = ds := by
        simp [folder_step, hf]
      rw [hstep, ih]
      simp [num_source_images, List.filter_cons, hf]
    · have hstep : folder_step "train" ds folder =
          folder.files.foldl (file_step "train") ds := by
        simp [folder_step, hf]
      rw [hstep, ih, files_fold_train_length]
      simp [num_source_images, List.filter_cons, hf]
      ring

/-- C3: each source image contributes exactly 4 samples to a
station-entity dataset — the rotations at 0°, 90°, 180°, 270° of the image
resized to 100×100, all 100×100 with 3 channels, all carrying the derived
label — and the dataset size is 4 × the number of source images. -/
theorem station_augmentation_spec (ds : T2RDataset) (img : Image) (fn : String)
    (hc : img.channels = 3) :
    (load_station_image ds img fn).data =
        ds.data ++ [0, 90, 180, 270].map (fun a => scipy_rotate (cv2_resize img 100 100) a)
    ∧ (load_station_image ds img fn).targets = ds.targets ++ List.replicate 4 (labelOf fn)
    ∧ (∀ x ∈ (load_station_image ds img fn).data.drop ds.data.length,
        x.height = 100 ∧ x.width = 100 ∧ x.channels = 3)
    ∧ (∀ root_listing, (T2RDataset.init root_listing "station").size =
        4 * num_source_images root_listing) := by
  have he := load_station_image_eq ds img fn
  refine ⟨by rw [he], by rw [he], ?_, ?_⟩
  · intro x hx
    rw [he] at hx
    simp only [List.drop_left] at hx
    simp only [List.map, List.mem_cons, List.not_mem_nil, or_false] at hx
    rcases hx with h | h | h | h <;> subst h <;>
      exact ⟨rfl, rfl, hc⟩
  · intro root_listing
    have h := folders_fold_station_length root_listing { data := [], targets := [] }
    simpa [T2RDataset.size, T2RDataset.init, load_data_eq_foldl] using h

/-- Witness for the station augmentation claim, at a concrete image and
filename. -/
theorem station_augmentation_spec_witness :
    (load_station_image { data := [], targets := [] } cxImage "red-1.png").data =
        [] ++ [0, 90, 180, 270].map
          (fun a => scipy_rotate (cv2_resize cxImage 100 100) a)
    ∧ (load_station_image { data := [], targets := [] } cxImage "red-1.png").targets =
        [] ++ List.replicate 4 (labelOf "red-1.png")
    ∧ (∀ x ∈ (load_station_image { data := [], targets := [] } cxImage
          "red-1.png").data.drop (List.length ([] : List Image)),
        x.height = 100 ∧ x.width = 100 ∧ x.channels = 3)
    ∧ (∀ root_listing, (T2RDataset.init root_listing "station").size =
        4 * num_source_images root_listing) :=
  station_augmentation_spec { data := [], targets := [] } cxImage "red-1.png" rfl

/-- C9: directory traversal skips `.DS_Store` entries at both levels — the
dataset built from any listing equals the one built from the listing with
all `.DS_Store` entries removed — and every kept file contributes its
samples: 4 per file for station datasets, 1 per file for train datasets. -/
theorem load_data_skip_rule :
    (∀ (dtype : String) (root_listing : List Folder) (ds : T2RDataset),
        load_data dtype
          ((root_listing.filter (fun folder => folder.name ≠ ".DS_Store")).map
            (fun folder =>
              { folder with
                files := folder.files.filter (fun f => f.name ≠ ".DS_Store") }))
          ds = load_data dtype root_listing ds)
    ∧ (∀ root_listing, (T2RDataset.init root_listing "station").size =
        4 * num_source_images root_listing)
    ∧ (∀ root_listing, (T2RDataset.init root_listing "train").size =
        num_source_images root_listing) := by
  refine ⟨?_, ?_, ?_⟩
  · intro dtype root_listing ds
    rw [load_data_eq_foldl, load_data_eq_foldl]
    induction root_listing generalizing ds with
    | nil => rfl
    | cons folder rest ih =>
      rw [List.filter_cons]
      by_cases hf : folder.name = ".DS_Store"
      · have hstep : folder_step dtype ds folder = ds := by
          simp [folder_step, hf]
        rw [if_neg (by simp [hf]), List.foldl_cons, hstep]
        exact ih ds
      · have hstep : folder_step dtype ds
            { folder with files := folder.files.filter (fun f => f.name ≠ ".DS_Store") } =
            folder_step dtype ds folder := by
          unfold folder_step
          rw [if_pos (by simpa using hf), if_pos (by simpa using hf)]
          exact files_fold_skip dtype folder.files ds
        rw [if_pos (by simp [hf]), List.map_cons, List.foldl_cons, List.foldl_cons,
          hstep]
        exact ih _
  · intro root_listing
    have h := folders_fold_station_length root_listing { data := [], targets := [] }
    simpa [T2RDataset.size, T2RDataset.init, load_data_eq_foldl] using h
  · intro root_listing
    have h := folders_fold_train_length root_listing { data := [], targets := [] }
    simpa [T2RDataset.size, T2RDataset.init, load_data_eq_foldl] using h

theorem file_step_other (dtype : String) (h1 : dtype ≠ "station")
    (h2 : dtype ≠ "train") (s : T2RDataset) (f : PyFile) :
    file_step dtype s f = s := by
  simp [file_step, h1, h2]

/-- C10: constructing `T2RDataset` with a `dtype` other than `'station'` or
`'train'` yields an empty dataset — no samples, no targets, size 0 — and
the construction signals no error (it is total). -/
theorem unknown_dtype_empty (root_listing : List Folder) (dtype : String)
    (h1 : dtype ≠ "station") (h2 : dtype ≠ "train") :
    T2RDataset.init root_listing dtype = { data := [], targets := [] }
    ∧ (T2RDataset.init root_listing dtype).size = 0 := by
  have hin : ∀ (files : List PyFile) (s : T2RDataset),
      files.foldl (file_step dtype) s = s := by
    intro files
    induction files with
    | nil => intro s; rfl
    | cons f fs ihf =>
      intro s
      rw [List.foldl_cons, file_step_other dtype h1 h2]
      exact ihf s
  have hload : ∀ (l : List Folder) (ds : T2RDataset), load_data dtype l ds = ds := by
    intro l
    induction l with
    | nil => intro ds; rfl
    | cons folder rest ihl =>
      intro ds
      rw [load_data_eq_foldl, List.foldl_cons]
      have hstep : folder_step dtype ds folder = ds := by
        unfold folder_step
        split_ifs <;> simp [hin]
      rw [hstep, ← load_data_eq_foldl]
      exact ihl ds
  have h := hload root_listing { data := [], targets := [] }
  exact ⟨h, by simp [T2RDataset.size, T2RDataset.init, h]⟩

/-- Witness for the unknown-dtype claim at a concrete listing and the
dtype string `"color"`. -/
theorem unknown_dtype_empty_witness :
    T2RDataset.init cxListing "color" = { data := [], targets := [] }
    ∧ (T2RDataset.init cxListing "color").size = 0 :=
  unknown_dtype_empty cxListing "color" (by decide) (by decide)

end T2R
